import Mathlib

/-!
Shallow embedding of the IBC 02-client `exported` package
(`x/ibc/02-client/exported/client.go`): the `Height` ordinal type with its
comparison, decrement and validity operations, the `ClientType` registry with
its string and JSON codecs, and (modelled from the spec, since only the Go
interface is declared in the source) the Active/Frozen client state machine.

Machine integers: Go `uint64` fields are embedded as `Nat` (values intended
below 2^64); Go `int64` conversion and subtraction wrap two's-complement
modulo 2^64, embedded explicitly by `int64Wrap`.
-/

/-- Two's-complement wrap of an integer into the `int64` range
`[-2^63, 2^63)`, the defined overflow behaviour of Go `int64` arithmetic. -/
def int64Wrap (z : Int) : Int :=
  (z + 2 ^ 63) % 2 ^ 64 - 2 ^ 63

/-- Go conversion `int64(u)` of a `uint64` value: reinterpret the bit
pattern, i.e. wrap into `[-2^63, 2^63)`. -/
def uint64ToInt64 (u : Nat) : Int :=
  int64Wrap (u : Int)

/-- Go: `type ClientType byte`. -/
abbrev ClientType := Nat

/-- Go constant `SoloMachine ClientType = 6`. -/
def SoloMachine : ClientType := 6

/-- Go constant `Tendermint ClientType = 7`. -/
def Tendermint : ClientType := 7

/-- Go constant `Localhost ClientType = 9`. -/
def Localhost : ClientType := 9

/-- Go constant `ClientTypeSoloMachine = "solomachine"`. -/
def ClientTypeSoloMachine : String := "solomachine"

/-- Go constant `ClientTypeTendermint = "tendermint"`. -/
def ClientTypeTendermint : String := "tendermint"

/-- Go constant `ClientTypeLocalHost = "localhost"`. -/
def ClientTypeLocalHost : String := "localhost"

/-- Go `func (ct ClientType) String() string`: a switch over `Tendermint`
and `Localhost` whose default arm returns the empty string. -/
def ClientType.String (ct : ClientType) : String :=
  if ct = Tendermint then ClientTypeTendermint
  else if ct = Localhost then ClientTypeLocalHost
  else ("")

/-- Go `func ClientTypeFromString(clientType string) ClientType`: a switch
over the two registered strings whose default arm returns 0. -/
def ClientTypeFromString (clientType : String) : ClientType :=
  if clientType = ClientTypeTendermint then Tendermint
  else if clientType = ClientTypeLocalHost then Localhost
  else 0

/-- Go `error` values are embedded as their message strings. -/
abbrev GoError := String

/-- The JSON values relevant to the `ClientType` codec: a JSON string, or
any other JSON document (on which `json.Unmarshal` into a Go `string`
fails). -/
inductive JSONValue where
  | JString (s : String)
  | JOther
deriving DecidableEq

/-- Go `func (ct ClientType) MarshalJSON() ([]byte, error)`: marshals
`ct.String()` as a JSON string; `json.Marshal` of a Go string never fails,
so the error component is always `none`. -/
def ClientType.MarshalJSON (ct : ClientType) : JSONValue × Option GoError :=
  (JSONValue.JString (ClientType.String ct), none)

/-- Go `func (ct *ClientType) UnmarshalJSON(data []byte) error`: unmarshal
`data` into a string (failing on non-string JSON), look the string up with
`ClientTypeFromString`, fail when the lookup yields 0, and assign the
receiver only on success. The result pairs the receiver value after the
call with the returned error. -/
def ClientType.UnmarshalJSON (ct : ClientType) (data : JSONValue) :
    ClientType × Option GoError :=
  match data with
  | JSONValue.JOther => (ct, some ("json: cannot unmarshal into string"))
  | JSONValue.JString s =>
    let clientType := ClientTypeFromString s
    if clientType = 0 then (ct, some ("invalid client type " ++ s))
    else (clientType, none)

/-- Go `type Height struct`: epoch number and epoch height, both `uint64`. -/
structure Height where
  EpochNumber : Nat
  EpochHeight : Nat
deriving DecidableEq

/-- Go `func NewHeight(epochNumber, epochHeight uint64) Height`. -/
def NewHeight (epochNumber epochHeight : Nat) : Height :=
  ⟨epochNumber, epochHeight⟩

/-- Go `func (h Height) Compare(other Height) int64`: when the epoch
numbers differ, `cmp = int64(h.EpochNumber) - int64(other.EpochNumber)`;
otherwise `cmp = int64(h.EpochHeight) - int64(other.EpochHeight)`; the
conversions reinterpret the `uint64` bits and the subtraction wraps, both
embedded via `int64Wrap`. Returns the sign of `cmp`. -/
def Height.Compare (h other : Height) : Int :=
  let cmp : Int :=
    if h.EpochNumber ≠ other.EpochNumber then
      int64Wrap (uint64ToInt64 h.EpochNumber - uint64ToInt64 other.EpochNumber)
    else
      int64Wrap (uint64ToInt64 h.EpochHeight - uint64ToInt64 other.EpochHeight)
  if cmp < 0 then -1 else if cmp > 0 then 1 else 0

/-- Go `func (h Height) LT(other Height) bool`. -/
def Height.LT (h other : Height) : Bool :=
  h.Compare other == -1

/-- Go `func (h Height) GT(other Height) bool`. -/
def Height.GT (h other : Height) : Bool :=
  h.Compare other == 1

/-- Go `func (h Height) EQ(other Height) bool`. -/
def Height.EQ (h other : Height) : Bool :=
  h.Compare other == 0

/-- Go `func (h Height) Decrement() (decremented Height, success bool)`. -/
def Height.Decrement (h : Height) : Height × Bool :=
  if h.EpochHeight ≤ 1 then (⟨0, 0⟩, false)
  else (NewHeight h.EpochNumber (h.EpochHeight - 1), true)

/-- Go `func (h Height) Valid() bool`: false iff `EpochHeight` is 0. -/
def Height.Valid (h : Height) : Bool :=
  h.EpochHeight != 0

/-- Go `func (h Height) IsZero() bool`. -/
def Height.IsZero (h : Height) : Bool :=
  h.EpochNumber == 0 && h.EpochHeight == 0

/-- Modelled from the spec: the error taxonomy of the client core (spec
section 7); the Go source of this excerpt declares only error names via
its imports, not their definitions. -/
inductive ClientError where
  | InvalidClientType
  | InvalidHeader
  | InvalidMisbehaviour
  | ClientFrozen
  | ClientNotFound
  | ConsensusStateNotFound
  | ProofSpecMismatch
  | ProofVerificationFailed
  | InvalidHeight
deriving DecidableEq

/-- Modelled from the spec: a header carries the claimed height, an opaque
claimed commitment root and timestamp, and an abstract flag recording
whether it authenticates under the variant trust model (the per-variant
cryptographic check is a pluggable implementation outside this excerpt). -/
structure MHeader where
  height : Height
  root : String
  timestamp : Nat
  authentic : Bool
deriving DecidableEq

/-- Modelled from the spec: a consensus-state snapshot: client type,
height, commitment root, timestamp. -/
structure MConsensusState where
  clientType : ClientType
  height : Height
  root : String
  timestamp : Nat
deriving DecidableEq

/-- Modelled from the spec: the per-client trust state behind the Go
`ClientState` interface (only the interface is declared in the source):
chain id, client type, latest trusted height, and the frozen height, which
is zero exactly when the client is active. Proof specs are abstracted into
the verification arguments. -/
structure MClientState where
  chainID : String
  clientType : ClientType
  latestHeight : Height
  frozenHeight : Nat
deriving DecidableEq

/-- Modelled from the spec: the `IsFrozen()` accessor — frozen height is
zero/unset when active. -/
def MClientState.IsFrozen (cs : MClientState) : Bool :=
  cs.frozenHeight != 0

/-- Modelled from the spec: `CheckHeaderAndUpdateState`. A frozen client
rejects every update with `ClientFrozen`; otherwise the header must
authenticate and strictly advance the latest trusted height, yielding the
updated client state and the new consensus snapshot to persist. -/
def checkHeaderAndUpdateState (cs : MClientState) (hd : MHeader) :
    Except ClientError (MClientState × MConsensusState) :=
  if MClientState.IsFrozen cs then Except.error ClientError.ClientFrozen
  else if hd.authentic && Height.GT hd.height cs.latestHeight then
    Except.ok (⟨ cs.chainID, cs.clientType, hd.height, cs.frozenHeight⟩,
               ⟨ cs.clientType, hd.height, hd.root, hd.timestamp⟩)
  else Except.error ClientError.InvalidHeader

/-- Modelled from the spec: misbehaviour evidence — a client id, a height,
and two height-tagged conflicting evidence headers. -/
structure MMisbehaviour where
  clientID : String
  height : Height
  header1 : MHeader
  header2 : MHeader
deriving DecidableEq

/-- Modelled from the spec: `CheckMisbehaviourAndUpdateState`. Any
operation attempted on a frozen client fails with `ClientFrozen` (spec
section 7); otherwise, iff both evidence halves independently authenticate
and conflict (same valid height, different roots), the returned client
state has its frozen height set to the misbehaviour height. -/
def checkMisbehaviourAndUpdateState (cs : MClientState) (m : MMisbehaviour) :
    Except ClientError MClientState :=
  if MClientState.IsFrozen cs then Except.error ClientError.ClientFrozen
  else if m.header1.authentic && m.header2.authentic &&
          Height.EQ m.header1.height m.height &&
          Height.EQ m.header2.height m.height &&
          Height.Valid m.height &&
          (m.header1.root != m.header2.root) then
    Except.ok ⟨ cs.chainID, cs.clientType, cs.latestHeight, m.height.EpochHeight⟩
  else Except.error ClientError.InvalidMisbehaviour

/-- Modelled from the spec: the eight fact types of the `Verify*` family
declared on the Go `ClientState` interface. -/
inductive VerifyOp where
  | clientState
  | clientConsensusState
  | connectionState
  | channelState
  | packetCommitment
  | packetAcknowledgement
  | packetAcknowledgementAbsence
  | nextSequenceRecv
deriving DecidableEq

/-- Modelled from the spec: the inputs common to a `Verify*` call, with the
store-lookup and cryptographic subroutines abstracted to their outcomes:
whether the proof structural parameters match the client proof specs,
whether a consensus state is recorded at the queried height, and whether
the verification engine accepts the proof against that snapshot root for
the key derived from the op identifiers. -/
structure MVerifyArgs where
  height : Height
  proofSpecsMatch : Bool
  consensusStateFound : Bool
  proofAccepted : Bool
deriving DecidableEq

/-- Modelled from the spec: the generic primitive behind the eight
`Verify*` operations: (1) reject a frozen client, (2) require matching
proof specs, (3) look up the consensus state at the given height,
(4) run the verification engine against its root. -/
def verifyCore (cs : MClientState) (op : VerifyOp) (args : MVerifyArgs) :
    Except ClientError Unit :=
  if MClientState.IsFrozen cs then Except.error ClientError.ClientFrozen
  else if !args.proofSpecsMatch then Except.error ClientError.ProofSpecMismatch
  else if !args.consensusStateFound then Except.error ClientError.ConsensusStateNotFound
  else if args.proofAccepted then Except.ok ()
  else Except.error ClientError.ProofVerificationFailed

/-- The sign computation at the end of `Height.Compare` always yields one
of -1, 0, 1. -/
theorem sign_ite_cases (c : Int) :
    (if c < 0 then (-1 : Int) else if c > 0 then 1 else 0) = -1 ∨
    (if c < 0 then (-1 : Int) else if c > 0 then 1 else 0) = 0 ∨
    (if c < 0 then (-1 : Int) else if c > 0 then 1 else 0) = 1 := by
  by_cases h1 : c < 0
  · exact Or.inl (by simp [h1])
  · by_cases h2 : c > 0
    · exact Or.inr (Or.inr (by simp [h1, h2]))
    · exact Or.inr (Or.inl (by simp [h1, h2]))

/-- `Height.Compare` is a total function into the value set {-1, 0, 1}. -/
theorem compare_cases (a b : Height) :
    a.Compare b = -1 ∨ a.Compare b = 0 ∨ a.Compare b = 1 := by
  simp only [Height.Compare]
  exact sign_ite_cases _

/-- `Height.Compare` of a height with itself is 0: the epoch numbers are
equal, so the wrapped difference of the equal epoch heights is taken,
which is zero. -/
theorem compare_self (h : Height) : h.Compare h = 0 := by
  simp only [Height.Compare, ne_eq, not_true_eq_false, if_false, ite_false, sub_self]
  decide

/-- Claim C1: the claim states that `Height.Compare` orders heights
lexicographically by epoch number then epoch height for all `uint64` field
values, including values whose difference exceeds the signed 64-bit range.
Evaluated at the failing input `a = Height{2^63, 0}`, `b = Height{0, 0}`:
`a.EpochNumber > b.EpochNumber` and both fields are in the `uint64` range,
yet `Compare` returns -1 instead of 1, because the Go conversion
`int64(2^63)` reinterprets the value as -2^63. -/
theorem compare_wraps_on_large_epoch_gap :
    Height.Compare ⟨ 2 ^ 63, 0⟩ ⟨ 0, 0⟩ = -1 ∧
    (0 : Nat) < 2 ^ 63 ∧ (2 ^ 63 : Nat) < 2 ^ 64 := by
  decide

/-- Claim C2: the claim states that `Height.Compare` is antisymmetric in
sign, transitive and reflexive. Evaluated at concrete heights in the
`uint64` range: antisymmetry fails at `a = {2^63, 0}`, `b = {0, 0}` (both
directions return -1), and transitivity fails at `a = {2^63, 0}`,
`b = {0, 0}`, `c = {1, 0}` (`a ≤ b` and `b ≤ c` by `Compare`, yet
`Compare a c = 1`), both caused by wrapping `int64` conversion. -/
theorem compare_order_laws_fail :
    (Height.Compare ⟨ 2 ^ 63, 0⟩ ⟨ 0, 0⟩ = -1 ∧
     Height.Compare ⟨ 0, 0⟩ ⟨ 2 ^ 63, 0⟩ = -1) ∧
    (Height.Compare ⟨ 2 ^ 63, 0⟩ ⟨ 0, 0⟩ ≤ 0 ∧
     Height.Compare ⟨ 0, 0⟩ ⟨ 1, 0⟩ ≤ 0 ∧
     Height.Compare ⟨ 2 ^ 63, 0⟩ ⟨ 1, 0⟩ = 1) := by
  decide

/-- Claim C3 counterexample: decoding the canonical string of the
registered client type `SoloMachine` does not return `SoloMachine`:
`String()` leaves `SoloMachine` to its default arm (the empty string) and
`ClientTypeFromString` maps the empty string to the sentinel 0. -/
theorem solomachine_roundtrip_fails :
    ClientTypeFromString (ClientType.String SoloMachine) ≠ SoloMachine := by
  decide

/-- Claim C3 (amended): decoding the canonical string encoding returns the
client type back for `Tendermint` and `Localhost`; for `SoloMachine`,
`String()` returns the empty string and the round trip yields the
unregistered sentinel 0, not `SoloMachine`. -/
theorem clientType_roundtrip :
    ClientTypeFromString (ClientType.String Tendermint) = Tendermint ∧
    ClientTypeFromString (ClientType.String Localhost) = Localhost ∧
    ClientType.String SoloMachine = "" ∧
    ClientTypeFromString (ClientType.String SoloMachine) = 0 := by
  decide

/-- Claim C4 counterexample: `String()` on the registered client type
`SoloMachine` does not emit the canonical non-empty string
`"solomachine"`. -/
theorem solomachine_string_not_canonical :
    ClientType.String SoloMachine ≠ "solomachine" := by
  decide

/-- Claim C4 (amended): `String()` returns `"tendermint"` for `Tendermint`
and `"localhost"` for `Localhost`, and `MarshalJSON` emits those strings
as JSON; for `SoloMachine`, `String()` returns the empty string and
`MarshalJSON` emits the empty JSON string. -/
theorem clientType_string_and_marshal :
    ClientType.String Tendermint = "tendermint" ∧
    ClientType.String Localhost = "localhost" ∧
    ClientType.MarshalJSON Tendermint = (JSONValue.JString "tendermint", none) ∧
    ClientType.MarshalJSON Localhost = (JSONValue.JString "localhost", none) ∧
    ClientType.String SoloMachine = "" ∧
    ClientType.MarshalJSON SoloMachine = (JSONValue.JString "", none) := by
  decide

/-- Claim C5: for every string that is not one of the three registered
canonical client-type strings, `ClientTypeFromString` returns the
unregistered sentinel 0, and `UnmarshalJSON` of that string returns an
error and leaves the receiver unchanged rather than assigning a valid
type. -/
theorem fromString_unknown_is_sentinel :
    ∀ (s : String) (ct : ClientType),
      s ≠ ClientTypeSoloMachine → s ≠ ClientTypeTendermint → s ≠ ClientTypeLocalHost →
      ClientTypeFromString s = 0 ∧
      (ClientType.UnmarshalJSON ct (JSONValue.JString s)).2 ≠ none ∧
      (ClientType.UnmarshalJSON ct (JSONValue.JString s)).1 = ct := by
  intro s ct _h1 h2 h3
  have hf : ClientTypeFromString s = 0 := by
    simp [ClientTypeFromString, h2, h3]
  refine ⟨hf, ?_, ?_⟩ <;> simp [ClientType.UnmarshalJSON, hf]

/-- Witness for claim C5 at the concrete unregistered string `"gaia"` and
receiver `Tendermint`. -/
theorem fromString_unknown_is_sentinel_witness :
    ClientTypeFromString "gaia" = 0 ∧
    (ClientType.UnmarshalJSON Tendermint (JSONValue.JString "gaia")).2 ≠ none ∧
    (ClientType.UnmarshalJSON Tendermint (JSONValue.JString "gaia")).1 = Tendermint :=
  fromString_unknown_is_sentinel "gaia" Tendermint (by decide) (by decide) (by decide)

/-- Claim C6: for every height with epoch height above 1, `Decrement`
returns the height with epoch height decremented by one, epoch number
unchanged, success true, and a valid result; otherwise it reports failure.
In particular `Height{1,5}` decrements to `(Height{1,4}, true)` and
`Height{1,1}` reports failure. -/
theorem decrement_spec :
    (∀ h : Height,
      (1 < h.EpochHeight →
        Height.Decrement h = (⟨h.EpochNumber, h.EpochHeight - 1⟩, true) ∧
        Height.Valid (Height.Decrement h).1 = true) ∧
      (h.EpochHeight ≤ 1 → Height.Decrement h = (⟨0, 0⟩, false))) ∧
    Height.Decrement ⟨1, 5⟩ = (⟨1, 4⟩, true) ∧
    (Height.Decrement ⟨1, 1⟩).2 = false := by
  refine ⟨?_, by decide, by decide⟩
  intro h
  constructor
  · intro hgt
    have hn : ¬ h.EpochHeight ≤ 1 := by omega
    constructor
    · simp [Height.Decrement, hn, NewHeight]
    · simp [Height.Decrement, hn, NewHeight, Height.Valid]
      omega
  · intro hle
    simp [Height.Decrement, hle]

/-- Witness for claim C6 at the concrete heights `Height{2,7}` (epoch
height above 1) and `Height{3,1}` (epoch height at the lowest value). -/
theorem decrement_spec_witness :
    (Height.Decrement ⟨2, 7⟩ = (⟨2, 6⟩, true) ∧
      Height.Valid (Height.Decrement ⟨2, 7⟩).1 = true) ∧
    Height.Decrement ⟨3, 1⟩ = (⟨0, 0⟩, false) :=
  ⟨(decrement_spec.1 ⟨2, 7⟩).1 (by decide), (decrement_spec.1 ⟨3, 1⟩).2 (by decide)⟩

/-- Claim C7: a height is valid exactly when its epoch height is nonzero
(regardless of epoch number), the zero height is `IsZero`, and the zero
height is not valid. -/
theorem valid_iff_epoch_height_nonzero :
    (∀ h : Height, Height.Valid h = true ↔ h.EpochHeight ≠ 0) ∧
    Height.IsZero ⟨0, 0⟩ = true ∧
    Height.Valid ⟨0, 0⟩ = false := by
  refine ⟨?_, by decide, by decide⟩
  intro h
  simp [Height.Valid]

/-- Witness for claim C7 at the concrete height `Height{7, 3}`, whose
nonzero epoch height makes it valid. -/
theorem valid_iff_epoch_height_nonzero_witness :
    Height.Valid ⟨7, 3⟩ = true :=
  (valid_iff_epoch_height_nonzero.1 ⟨7, 3⟩).mpr (by decide)

/-- Claim C8: for every pair of heights exactly one of `LT`, `GT`, `EQ`
returns true (because `Compare` always returns exactly one of -1, 0, 1),
and `EQ` is reflexive. -/
theorem lt_gt_eq_trichotomy :
    (∀ a b : Height,
      (Height.LT a b = true ∧ Height.GT a b = false ∧ Height.EQ a b = false) ∨
      (Height.LT a b = false ∧ Height.GT a b = false ∧ Height.EQ a b = true) ∨
      (Height.LT a b = false ∧ Height.GT a b = true ∧ Height.EQ a b = false)) ∧
    (∀ h : Height, Height.EQ h h = true) := by
  constructor
  · intro a b
    rcases compare_cases a b with hc | hc | hc
    · exact Or.inl (by simp [Height.LT, Height.GT, Height.EQ, hc])
    · exact Or.inr (Or.inl (by simp [Height.LT, Height.GT, Height.EQ, hc]))
    · exact Or.inr (Or.inr (by simp [Height.LT, Height.GT, Height.EQ, hc]))
  · intro h
    simp [Height.EQ, compare_self h]

/-- Claim C9: freezing is terminal. For every frozen client state, every
`CheckHeaderAndUpdateState` call, every one of the eight `Verify*`
operations, and every misbehaviour submission fails with `ClientFrozen`,
whatever the supplied header, evidence or proof outcomes — so no operation
of this core produces any successor state from a frozen client, and in
particular none un-freezes it. -/
theorem frozen_is_terminal :
    ∀ (cs : MClientState) (hd : MHeader) (m : MMisbehaviour)
      (op : VerifyOp) (args : MVerifyArgs),
      MClientState.IsFrozen cs = true →
      checkHeaderAndUpdateState cs hd = Except.error ClientError.ClientFrozen ∧
      verifyCore cs op args = Except.error ClientError.ClientFrozen ∧
      checkMisbehaviourAndUpdateState cs m = Except.error ClientError.ClientFrozen := by
  intro cs hd m op args hfz
  refine ⟨?_, ?_, ?_⟩ <;>
    simp [checkHeaderAndUpdateState, verifyCore, checkMisbehaviourAndUpdateState, hfz]

/-- Witness for claim C9 at a concrete frozen client (frozen height 5),
an otherwise-valid advancing header, conflicting misbehaviour evidence,
and a packet-commitment verification whose abstract subroutines all
succeed. -/
theorem frozen_is_terminal_witness :
    checkHeaderAndUpdateState ⟨ "gaiachain", Tendermint, ⟨0, 10⟩, 5⟩
        ⟨ ⟨0, 11⟩, "rootA", 1, true⟩
      = Except.error ClientError.ClientFrozen ∧
    verifyCore ⟨ "gaiachain", Tendermint, ⟨0, 10⟩, 5⟩
        VerifyOp.packetCommitment ⟨ ⟨0, 10⟩, true, true, true⟩
      = Except.error ClientError.ClientFrozen ∧
    checkMisbehaviourAndUpdateState ⟨ "gaiachain", Tendermint, ⟨0, 10⟩, 5⟩
        ⟨ "clientA", ⟨0, 9⟩, ⟨ ⟨0, 9⟩, "rootB", 1, true⟩, ⟨ ⟨0, 9⟩, "rootC", 1, true⟩⟩
      = Except.error ClientError.ClientFrozen :=
  frozen_is_terminal ⟨ "gaiachain", Tendermint, ⟨0, 10⟩, 5⟩
    ⟨ ⟨0, 11⟩, "rootA", 1, true⟩
    ⟨ "clientA", ⟨0, 9⟩, ⟨ ⟨0, 9⟩, "rootB", 1, true⟩, ⟨ ⟨0, 9⟩, "rootC", 1, true⟩⟩
    VerifyOp.packetCommitment ⟨ ⟨0, 10⟩, true, true, true⟩ (by decide)

/-- Claim C10: `UnmarshalJSON` is atomic on failure: whenever it returns
an error (non-string JSON or an unrecognized string) the receiver keeps
its previous value, and the receiver is assigned exactly when decoding
succeeds, in which case it holds the decoded registered type. -/
theorem unmarshalJSON_atomic_on_failure :
    ∀ (ct : ClientType) (data : JSONValue),
      ((ClientType.UnmarshalJSON ct data).2 ≠ none →
        (ClientType.UnmarshalJSON ct data).1 = ct) ∧
      ((ClientType.UnmarshalJSON ct data).2 = none →
        ∃ s, data = JSONValue.JString s ∧ ClientTypeFromString s ≠ 0 ∧
          (ClientType.UnmarshalJSON ct data).1 = ClientTypeFromString s) := by
  intro ct data
  cases data with
  | JOther =>
    constructor
    · intro _
      simp [ClientType.UnmarshalJSON]
    · intro hok
      simp [ClientType.UnmarshalJSON] at hok
  | JString s =>
    by_cases h : ClientTypeFromString s = 0
    · constructor
      · intro _
        simp [ClientType.UnmarshalJSON, h]
      · intro hok
        simp [ClientType.UnmarshalJSON, h] at hok
    · constructor
      · intro herr
        exfalso
        apply herr
        simp [ClientType.UnmarshalJSON, h]
      · intro _
        exact ⟨s, rfl, h, by simp [ClientType.UnmarshalJSON, h]⟩

/-- Witness for claim C10: the receiver `SoloMachine` is unchanged after
the failing decode of the unregistered string `"gaiahub"`, and decoding
the registered string `"tendermint"` assigns the decoded type. -/
theorem unmarshalJSON_atomic_on_failure_witness :
    (ClientType.UnmarshalJSON SoloMachine (JSONValue.JString "gaiahub")).1 = SoloMachine ∧
    (∃ s, JSONValue.JString "tendermint" = JSONValue.JString s ∧
      ClientTypeFromString s ≠ 0 ∧
      (ClientType.UnmarshalJSON Localhost (JSONValue.JString "tendermint")).1
        = ClientTypeFromString s) :=
  ⟨(unmarshalJSON_atomic_on_failure SoloMachine (JSONValue.JString "gaiahub")).1 (by decide),
   (unmarshalJSON_atomic_on_failure Localhost (JSONValue.JString "tendermint")).2 (by decide)⟩
